import Mathlib

/-
Verification of the irasutoya-images-english pipeline (src/iie.py) against its
specification. The Python source is shallowly embedded: record fields are
modelled as strings or lists of strings, dicts as ordered association lists,
and the effectful parts (the retrying generator `_process`, the translator
`_translate`, the driver `main`) as pure functions that also return the trace
of the effects (sleeps, network requests) the Python code would perform.
-/

namespace IIE

/-- Field values occurring in irasutoya records: a string or a list of strings. -/
inductive PyVal where
  | str (s : String)
  | list (l : List String)
deriving DecidableEq

/-- Python truthiness of an optional field value as `_translate` tests it
(`if not text or text is None`): `None`, the empty string and the empty list
are falsy. -/
def isFalsy : Option PyVal → Bool
  | none => true
  | some (.str s) => s == ""
  | some (.list l) => l.isEmpty

/-- A record: a JSON object, i.e. an ordered string-keyed dictionary. -/
abbrev Record := List (String × PyVal)

/-- Python `d.get(k, default)`. -/
def getD (r : Record) (k : String) (d : PyVal) : PyVal :=
  match r.lookup k with
  | some v => v
  | none => d

/-- Python dict assignment `d[k] = v`: overwrite the entry for `k` in place if
present, otherwise append it at the end (dicts preserve insertion order). -/
def setK : Record → String → PyVal → Record
  | [], k, v => [(k, v)]
  | (k1, v1) :: rest, k, v =>
    if k1 = k then (k, v) :: rest else (k1, v1) :: setK rest k v

/-- Splits a list of characters on a separator character, Python
`str.split(sep)` style for a one-character separator: splitting the empty
string gives `[[]]`, and consecutive separators give empty pieces. -/
def splitOnChar (c : Char) : List Char → List (List Char)
  | [] => [[]]
  | x :: xs =>
    let r := splitOnChar c xs
    if x = c then [] :: r
    else
      match r with
      | [] => [[x]]
      | y :: ys => (x :: y) :: ys

/-- Python `s.split(c)` for a single-character separator `c`. -/
def pySplit (s : String) (c : Char) : List String :=
  (splitOnChar c s.data).map String.mk

/-- Whether a string starts with the character `c`. -/
def strStarts (s : String) (c : Char) : Bool :=
  match s.data with
  | [] => false
  | x :: _ => x = c

/-- Whether a string ends with the character `c`. -/
def strEnds (s : String) (c : Char) : Bool :=
  match s.data.getLast? with
  | none => false
  | some x => x = c

/-- One step of CPython `posixpath.join`: an absolute component restarts the
path, and a separator is inserted only when the accumulated path is non-empty
and does not already end with one. -/
def joinTwo (path b : String) : String :=
  if strStarts b '/' then b
  else if path == "" || strEnds path '/' then path ++ b
  else path ++ "/" ++ b

/-- CPython `os.path.join(a, *ps)` on a POSIX platform. -/
def posixJoin (a : String) (ps : List String) : String :=
  ps.foldl joinTwo a

/-- The fixed image-root directory constant `IMAGE_DIR` of iie.py. -/
def IMAGE_DIR : String := "images"

/-- iie.py `_get_filename_from_url`: `url.split('/')[-1]`. -/
def getFilenameFromUrl (url : String) : String :=
  (pySplit url '/').getLastD ""

/-- iie.py `_get_publibed_year_month`:
`year, month = published_at.split(' ')[0].split('-')[:-1]`.
The tuple unpacking succeeds exactly when the sliced list has two elements;
otherwise Python raises `ValueError`, modelled as `none`. -/
def getPublibedYearMonth (published_at : String) : Option (String × String) :=
  match (pySplit ((pySplit published_at ' ').headD "") '-').dropLast with
  | [y, m] => some (y, m)
  | _ => none

/-- A translated item returned by the remote translation client; `_translate`
reads its `.text` attribute. -/
structure Translated where
  text : String
deriving DecidableEq

/-- Result shape of the remote `Translator(…).translate(text, dest)` call. -/
inductive ApiResult where
  | one (t : Translated)
  | many (l : List Translated)

/-- Modelled from the spec: the external translation service (an excluded
collaborator of iie.py, reached through `googletrans.Translator.translate`)
returns one translated object for a single-string input and, for a list input,
a list of translated objects of the same length and order. `g` gives the
remote translation of one string. -/
def translateApi (g : String → String) : PyVal → ApiResult
  | .str s => .one ⟨g s⟩
  | .list l => .many (l.map fun s => ⟨g s⟩)

/-- Observable effects of one `_translate` call: the outbound translation
request, and a pause of `d` time units. -/
inductive Effect where
  | request
  | sleep (d : Nat)
deriving DecidableEq

/-- Whether a trace of effects contains any pause. -/
def hasSleep : List Effect → Bool
  | [] => false
  | .sleep _ :: _ => true
  | _ :: es => hasSleep es

/-- Result of a `_translate` call: the value returned, or the propagation of
the exception raised by the remote call. -/
inductive TransResult where
  | ok (v : PyVal)
  | raised
deriving DecidableEq

/-- iie.py `_translate` (lines 57-80), returning the value produced (or an
error when the remote call raises) together with the trace of effects, in
order. `fail` says whether the remote `translate` call raises; `r` is the
value `randint(3, 6)` produced for the `sleep`. Falsy input returns `''` with
no request and no sleep; on a raising remote call the exception propagates
before the `sleep` line is reached. -/
def translateRun (g : String → String) (fail : Bool) (r : Nat)
    (text : Option PyVal) : TransResult × List Effect :=
  if isFalsy text then (.ok (.str ""), [])
  else if fail then (.raised, [.request])
  else
    let res :=
      match translateApi g (text.getD (.str "")) with
      | .one t => PyVal.str t.text
      | .many l => PyVal.list (l.map Translated.text)
    (.ok res, [.request, .sleep r])

/-- The value `_translate` returns on its success path, as `_transform` uses
it: falsy input gives `''`, a string is translated, a list is translated
elementwise in order. -/
def translatePure (g : String → String) (v : PyVal) : PyVal :=
  if isFalsy (some v) then .str ""
  else
    match v with
    | .str s => .str (g s)
    | .list l => .list (l.map g)

/-- Python `str` methods applied to a field value: on a list they raise
`AttributeError`, modelled as `none`. -/
def asString : PyVal → Option String
  | .str s => some s
  | .list _ => none

/-- iie.py `_transform` (lines 109-130), parametrised by the remote
translation `g` (its success path; network failures inside `_translate` are
handled one level up, in `_process`). Any failure inside the body — the
`AttributeError` from calling a `str` method on a list value, or the
`ValueError` from the year/month unpacking in `_get_publibed_year_month` —
is modelled as `none`. The field order of the Python code is kept: the
filename is derived first, the four `_en` fields are assigned in order on a
copy of the input, and `directory_path` is computed last from `original`. -/
def transform (g : String → String) (original : Record) : Option Record :=
  match asString (getD original "image_url" (PyVal.str "")) with
  | none => none
  | some url =>
    let filename := getFilenameFromUrl url
    let n1 := setK original "title_en" (translatePure g (getD original "title" (PyVal.str "")))
    let n2 := setK n1 "description_en" (translatePure g (getD n1 "description" (PyVal.str "")))
    let n3 := setK n2 "categories_en" (translatePure g (getD n2 "categories" (PyVal.str "")))
    let n4 := setK n3 "image_alt_en" (translatePure g (getD n3 "image_alt" (PyVal.str "")))
    match asString (getD original "published_at" (PyVal.str "")) with
    | none => none
    | some pa =>
      match getPublibedYearMonth pa with
      | none => none
      | some (y, m) =>
        some (setK n4 "directory_path"
          (PyVal.str (posixJoin "." [IMAGE_DIR, y, m, filename])))

/-- Outcome of one execution of the `try` block of `_process` (iie.py
lines 178-191) for one record: all steps succeed producing `new_obj = r`, or
an exception of one of the three handled classes is raised. -/
inductive AttemptOutcome where
  | success (r : Record)
  | netErr
  | userAbort
  | unexpected
deriving DecidableEq

/-- How the inner attempt loop of `_process` ended for one record. -/
inductive InnerRes where
  | yielded (r : Record)
  | retNet
  | retUser
  | raisedName
  | fellOff
deriving DecidableEq

/-- The inner `for attempt in range(max_retries)` loop of `_process`
(iie.py lines 176-212) for one record, where `f a` is the outcome of the
`try` block on attempt `a`. Returns the list of sleep durations performed and
how the loop ended. A network error on the last attempt returns out of the
generator (`retNet`); earlier network errors sleep 30 and rerun the whole
attempt. A user interrupt returns (`retUser`). An unexpected exception lands
in the bare `except:` (lines 205-209), whose body calls `logging.error(e)`
with `e` unbound — Python 3 deletes each `except … as e` binding when its
handler exits, so the name `e` never survives to the bare handler — raising
`NameError` out of the generator (`raisedName`). `fellOff` means the range
was exhausted with neither break nor return, which happens exactly when the
range is empty (`max_retries <= 0`), since a successful attempt breaks and a
network error on the final attempt returns. The two `Nat` arguments are the
current attempt index and the number of range iterations still ahead
(`maxRetries.toNat - attempt`, see `runAttempts`). -/
def attemptLoop (f : Nat → AttemptOutcome) (maxRetries : Int) :
    Nat → Nat → List Nat × InnerRes
  | _, 0 => ([], .fellOff)
  | attempt, remaining + 1 =>
    match f attempt with
    | .success r => ([], .yielded r)
    | .netErr =>
      if (attempt : Int) ≥ maxRetries - 1 then ([], .retNet)
      else
        let res := attemptLoop f maxRetries (attempt + 1) remaining
        (30 :: res.1, res.2)
    | .userAbort => ([], .retUser)
    | .unexpected => ([], .raisedName)

/-- The inner loop of `_process` for one record, entered at attempt 0 with the
full `range(max_retries)` ahead of it; `range` over a non-positive bound is
empty. -/
def runAttempts (f : Nat → AttemptOutcome) (maxRetries : Int) :
    List Nat × InnerRes :=
  attemptLoop f maxRetries 0 maxRetries.toNat

/-- How a run of the `_process` generator ended, as its consumer sees it. -/
inductive BatchOutcome where
  | ok
  | abortedNet
  | abortedUser
  | nameErrorE
  | nameErrorNewObj
deriving DecidableEq

/-- One run of the `_process` generator: the records it emitted, the sleep
durations it performed, and how it ended. `ok`, `abortedNet` and
`abortedUser` are clean generator terminations (the consuming `for` loop just
ends); `nameErrorE` (the unbound `e` in the bare `except:`) and
`nameErrorNewObj` (the `yield new_obj` with `new_obj` never assigned) are
exceptions propagating out of the generator to its consumer. -/
structure ProcOut where
  emitted : List Record
  sleeps : List Nat
  outcome : BatchOutcome
deriving DecidableEq

/-- The `_process` generator (iie.py lines 158-214). `st r a` is the outcome
of the `try` block for record `r` on attempt `a`; `lastObj` models the
generator-local variable `new_obj`, which keeps its value from the previous
record across iterations of the outer loop, and starts unassigned (`none`) —
reaching `yield new_obj` with it unassigned raises `UnboundLocalError`. -/
def processBatch (st : Record → Nat → AttemptOutcome) (records : List Record)
    (maxRetries : Int) (lastObj : Option Record) : ProcOut :=
  match records with
  | [] => ⟨[], [], .ok⟩
  | r :: rest =>
    let res := runAttempts (st r) maxRetries
    match res.2 with
    | .yielded n =>
      let o := processBatch st rest maxRetries (some n)
      ⟨n :: o.emitted, res.1 ++ o.sleeps, o.outcome⟩
    | .fellOff =>
      match lastObj with
      | some n =>
        let o := processBatch st rest maxRetries (some n)
        ⟨n :: o.emitted, res.1 ++ o.sleeps, o.outcome⟩
      | none => ⟨[], res.1, .nameErrorNewObj⟩
    | .retNet => ⟨[], res.1, .abortedNet⟩
    | .retUser => ⟨[], res.1, .abortedUser⟩
    | .raisedName => ⟨[], res.1, .nameErrorE⟩

/-- The outcome of one `try`-block attempt when `download` is off and every
remote translation succeeds with `g`: run `_transform` when `translate` is on
(else pass the record through), then re-parse year/month from the resulting
record's `published_at`. Any failure of those steps is neither a socket error
nor an interrupt, so it lands in the bare `except:`. -/
def pureAttempt (g : String → String) (translate : Bool) (r : Record) :
    AttemptOutcome :=
  match (if translate then transform g r else some r) with
  | none => .unexpected
  | some n =>
    match asString (getD n "published_at" (PyVal.str "")) with
    | none => .unexpected
    | some s =>
      match getPublibedYearMonth s with
      | none => .unexpected
      | some _ => .success n

/-- Flag defaulting in `main` (iie.py lines 232-236): when neither flag is
passed, both are treated as on. Returns the resolved (download, translate). -/
def resolveFlags (download translate : Bool) : Bool × Bool :=
  let argumentNotPassed := !download && !translate
  (download || argumentNotPassed, translate || argumentNotPassed)

/-- What a run of `main` did: the in-memory `output_json` when the loop over
the generator ended (or when an exception escaped it), the content written to
the output file (`none` when the file was not rewritten), and whether `main`
terminated by propagating an exception. -/
structure MainOut where
  memory : List Record
  fileWrite : Option (List Record)
  raised : Bool
deriving DecidableEq

/-- iie.py `main` (lines 226-255): resolve the flags, load the existing
output collection (empty when the file is absent), drop that many records
from the freshly loaded source list, run `_process` over the remainder
appending every yielded record, and finally rewrite the output file exactly
when the resolved translate flag is on — unless the generator raised, in
which case the exception propagates out of `main` before the write is
reached. The resolved download flag only changes what the `try` block does
per attempt, which `st` abstracts. -/
def mainRun (fullSource : List Record) (existingFile : Option (List Record))
    (st : Record → Nat → AttemptOutcome) (download translate : Bool)
    (maxRetries : Int) : MainOut :=
  let flags := resolveFlags download translate
  let output0 := existingFile.getD []
  let src := fullSource.drop output0.length
  let p := processBatch st src maxRetries none
  let mem := output0 ++ p.emitted
  match p.outcome with
  | .nameErrorE => ⟨mem, none, true⟩
  | .nameErrorNewObj => ⟨mem, none, true⟩
  | _ => ⟨mem, if flags.2 then some mem else none, false⟩

/-- The five keys `_transform` writes into its output. -/
def enKeys : List String :=
  ["title_en", "description_en", "categories_en", "image_alt_en", "directory_path"]

/-- A record whose `published_at` has a single dash-separated component, so
`_get_publibed_year_month` raises `ValueError` on it. -/
def recBadDate : Record := [("published_at", PyVal.str "2020")]

/-- A concrete record used as a generic successful record in witnesses. -/
def recA : Record := [("k", PyVal.str "a")]

/-- A concrete record used as the failing record in witnesses. -/
def recB : Record := [("k", PyVal.str "b")]

/-- A record that already carries a `title_en` entry before transformation. -/
def recOverwrite : Record :=
  [("image_url", PyVal.str "http://x/a.png"),
   ("published_at", PyVal.str "2020-01-05 10:00:00"),
   ("title_en", PyVal.str "x")]

/-- The source record of the spec's end-to-end scenario (with an ASCII title
standing in for the Japanese one, which only the remote translation sees). -/
def recEx : Record :=
  [("image_url", PyVal.str "http://x/a.png"),
   ("published_at", PyVal.str "2020-01-05 10:00:00"),
   ("title", PyVal.str "hello")]

/-- The record `_transform` produces from `recEx` under the identity remote
translation. -/
def recExOut : Record :=
  [("image_url", PyVal.str "http://x/a.png"),
   ("published_at", PyVal.str "2020-01-05 10:00:00"),
   ("title", PyVal.str "hello"),
   ("title_en", PyVal.str "hello"),
   ("description_en", PyVal.str ""),
   ("categories_en", PyVal.str ""),
   ("image_alt_en", PyVal.str ""),
   ("directory_path", PyVal.str "./images/2020/01/a.png")]

theorem lookup_setK_self (r : Record) (k : String) (v : PyVal) :
    (setK r k v).lookup k = some v := by
  induction r with
  | nil => simp [setK, List.lookup]
  | cons p rest ih =>
    obtain ⟨k1, v1⟩ := p
    by_cases h : k1 = k
    · simp [setK, h, List.lookup]
    · have hb : (k == k1) = false := beq_eq_false_iff_ne.mpr (Ne.symm h)
      simp [setK, h, List.lookup, hb, ih]

theorem lookup_setK_ne (r : Record) (k k2 : String) (v : PyVal) (h : k2 ≠ k) :
    (setK r k v).lookup k2 = r.lookup k2 := by
  have hb : (k2 == k) = false := beq_eq_false_iff_ne.mpr h
  induction r with
  | nil => simp [setK, List.lookup, hb]
  | cons p rest ih =>
    obtain ⟨k1, v1⟩ := p
    by_cases h1 : k1 = k
    · subst h1
      simp [setK, List.lookup, hb]
    · simp only [setK, if_neg h1, List.lookup]
      cases hb2 : (k2 == k1) <;> simp [ih]

theorem getD_setK_ne (r : Record) (k k2 : String) (v d : PyVal) (h : k2 ≠ k) :
    getD (setK r k v) k2 d = getD r k2 d := by
  simp [getD, lookup_setK_ne r k k2 v h]

theorem splitOnChar_ne_nil (c : Char) (l : List Char) : splitOnChar c l ≠ [] := by
  cases l with
  | nil => simp [splitOnChar]
  | cons x xs =>
    simp only [splitOnChar]
    by_cases h : x = c
    · simp [h]
    · simp only [h, if_false]
      cases splitOnChar c xs <;> simp

theorem pySplit_ne_nil (s : String) (c : Char) : pySplit s c ≠ [] := by
  simp [pySplit, splitOnChar_ne_nil]

theorem attemptLoop_allNet (f : Nat → AttemptOutcome) (maxRetries : Int)
    (hf : ∀ a : Nat, (a : Int) < maxRetries → f a = .netErr) :
    ∀ (rem attempt : Nat), attempt + rem = maxRetries.toNat → 0 < rem →
      attemptLoop f maxRetries attempt rem = (List.replicate (rem - 1) 30, .retNet) := by
  intro rem
  induction rem with
  | zero => omega
  | succ rem2 ih =>
    intro attempt hsum _
    have hlt : (attempt : Int) < maxRetries := by omega
    rw [attemptLoop, hf attempt hlt]
    by_cases hc : (attempt : Int) ≥ maxRetries - 1
    · rw [if_pos hc]
      have h0 : rem2 = 0 := by omega
      subst h0
      simp
    · rw [if_neg hc]
      have h2 : 0 < rem2 := by omega
      rw [ih (attempt + 1) (by omega) h2]
      obtain ⟨rem3, rfl⟩ : ∃ n, rem2 = n + 1 := ⟨rem2 - 1, by omega⟩
      simp [List.replicate_succ]

theorem runAttempts_allNet (f : Nat → AttemptOutcome) (maxRetries : Int)
    (hm : 1 ≤ maxRetries)
    (hf : ∀ a : Nat, (a : Int) < maxRetries → f a = .netErr) :
    runAttempts f maxRetries = (List.replicate (maxRetries.toNat - 1) 30, .retNet) := by
  rw [runAttempts, attemptLoop_allNet f maxRetries hf maxRetries.toNat 0 (by omega) (by omega)]

theorem runAttempts_success (f : Nat → AttemptOutcome) (maxRetries : Int)
    (r : Record) (hm : 1 ≤ maxRetries) (hf : f 0 = .success r) :
    runAttempts f maxRetries = ([], .yielded r) := by
  obtain ⟨k, hk⟩ : ∃ n, maxRetries.toNat = n + 1 := ⟨maxRetries.toNat - 1, by omega⟩
  rw [runAttempts, hk, attemptLoop, hf]

theorem processBatch_allYield (st : Record → Nat → AttemptOutcome)
    (t : Record → Record) (maxRetries : Int) :
    ∀ (l : List Record) (lastObj : Option Record),
      (∀ r ∈ l, (runAttempts (st r) maxRetries).2 = .yielded (t r)) →
      processBatch st l maxRetries lastObj =
        ⟨l.map t, (l.map fun r => (runAttempts (st r) maxRetries).1).flatten, .ok⟩ := by
  intro l
  induction l with
  | nil => intro lastObj _; simp [processBatch]
  | cons r rest ih =>
    intro lastObj h
    have hr := h r (by simp)
    simp only [processBatch, hr, ih (some (t r)) fun x hx => h x (by simp [hx]),
      List.map_cons, List.flatten_cons]

theorem processBatch_prefixThenNet (st : Record → Nat → AttemptOutcome)
    (t : Record → Record) (b : Record) (maxRetries : Int)
    (hm : 1 ≤ maxRetries)
    (hbad : ∀ a : Nat, (a : Int) < maxRetries → st b a = .netErr) :
    ∀ (rs rest : List Record) (lastObj : Option Record),
      (∀ r ∈ rs, st r 0 = .success (t r)) →
      processBatch st (rs ++ b :: rest) maxRetries lastObj =
        ⟨rs.map t, List.replicate (maxRetries.toNat - 1) 30, .abortedNet⟩ := by
  intro rs
  induction rs with
  | nil =>
    intro rest lastObj _
    rw [List.nil_append]
    simp only [processBatch, runAttempts_allNet (st b) maxRetries hm hbad]
    simp
  | cons r rs2 ih =>
    intro rest lastObj h
    rw [List.cons_append]
    simp only [processBatch,
      runAttempts_success (st r) maxRetries (t r) hm (h r (by simp)),
      ih rest (some (t r)) fun x hx => h x (by simp [hx])]
    simp

/-- C1: a network error on any attempt of a record sleeps 30 time units and
retries the whole per-record attempt, consuming one of `maxRetries` attempts;
once a record fails `maxRetries` consecutive times with network errors, the
generator returns: the batch stops with exactly the already-emitted prefix
(here, the earlier records, each succeeding on its first attempt), no partial
result for the failing record, and no later record attempted (the suffix
`rest` is arbitrary and does not occur in the result). -/
theorem process_retry_exhaustion (st : Record → Nat → AttemptOutcome)
    (t : Record → Record) (rs rest : List Record) (b : Record)
    (maxRetries : Int) (hm : 1 ≤ maxRetries)
    (hok : ∀ r ∈ rs, st r 0 = .success (t r))
    (hbad : ∀ a : Nat, (a : Int) < maxRetries → st b a = .netErr) :
    processBatch st (rs ++ b :: rest) maxRetries none =
      ⟨rs.map t, List.replicate (maxRetries.toNat - 1) 30, .abortedNet⟩ :=
  processBatch_prefixThenNet st t b maxRetries hm hbad rs rest none hok

theorem process_retry_exhaustion_witness :
    processBatch
      (fun r _ => if r = recB then AttemptOutcome.netErr else AttemptOutcome.success r)
      ([recA] ++ recB :: []) 2 none = ⟨[recA], [30], .abortedNet⟩ :=
  process_retry_exhaustion
    (fun r _ => if r = recB then AttemptOutcome.netErr else AttemptOutcome.success r)
    (fun r => r) [recA] [] recB 2 (by decide)
    (by intro r hr; simp only [List.mem_singleton] at hr; subst hr; decide)
    (by intro a _; simp)

/-- C2: for a `published_at` whose date portion (the part before the first
space) splits on dashes into exactly three components, year/month extraction
returns the first two of them; when the date portion has fewer than two
dash-separated components, the tuple unpacking fails (ValueError). -/
theorem year_month_extraction (s dp y m d : String)
    (hdp : (pySplit s ' ').headD "" = dp) :
    (pySplit dp '-' = [y, m, d] → getPublibedYearMonth s = some (y, m)) ∧
    ((pySplit dp '-').length < 2 → getPublibedYearMonth s = none) := by
  constructor
  · intro h3
    unfold getPublibedYearMonth
    rw [hdp, h3]
    rfl
  · intro hlt
    rcases hx : pySplit dp '-' with _ | ⟨x, xs⟩
    · exact absurd hx (pySplit_ne_nil dp '-')
    · rw [hx] at hlt
      simp only [List.length_cons] at hlt
      have hxs : xs = [] := by
        cases xs with
        | nil => rfl
        | cons a as => simp at hlt; omega
      subst hxs
      unfold getPublibedYearMonth
      rw [hdp, hx]
      rfl

theorem year_month_extraction_witness :
    getPublibedYearMonth "2020-01-05 10:00:00" = some ("2020", "01") ∧
    getPublibedYearMonth "2020" = none := by
  have h1 := year_month_extraction "2020-01-05 10:00:00" "2020-01-05" "2020" "01" "05"
    (by decide)
  have h2 := year_month_extraction "2020" "2020" "" "" "" (by decide)
  exact ⟨h1.1 (by decide), h2.2 (by decide)⟩

/-- C3 (code bug): a per-record failure that is neither a socket error nor a
user interrupt — here the `ValueError` raised by `_get_publibed_year_month`
on the record `{"published_at": "2020"}` with translate and download both
off — lands in the bare `except:` of `_process`, whose body evaluates the
unbound name `e`, so the generator does not end cleanly: it raises
`NameError` to its caller (`nameErrorE`), emitting nothing. -/
theorem process_unexpected_raises_nameerror :
    processBatch (fun r _ => pureAttempt (fun s => s) false r) [recBadDate] 10 none =
      ⟨[], [], .nameErrorE⟩ := by decide

/-- C4: with an existing output collection of length K and a source list of
length N, a run that aborts nowhere (every remaining record's attempt loop
ends in a yield) appends exactly the processed images of the source records
at indices [K, N) in order; in particular, when K is at least N nothing is
appended and a translate run rewrites the file with its previous content. -/
theorem driver_resumption (full existing : List Record)
    (st : Record → Nat → AttemptOutcome) (t : Record → Record)
    (download translate : Bool) (maxRetries : Int)
    (hok : ∀ r ∈ full.drop existing.length,
      (runAttempts (st r) maxRetries).2 = .yielded (t r)) :
    mainRun full (some existing) st download translate maxRetries =
      ⟨existing ++ (full.drop existing.length).map t,
       if (resolveFlags download translate).2 then
         some (existing ++ (full.drop existing.length).map t)
       else none,
       false⟩ ∧
    ((full.drop existing.length).map t).length = full.length - existing.length ∧
    (full.length ≤ existing.length →
      existing ++ (full.drop existing.length).map t = existing) := by
  refine ⟨?_, ?_, ?_⟩
  · simp only [mainRun, Option.getD_some]
    rw [processBatch_allYield st t maxRetries (full.drop existing.length) none hok]
  · simp [List.length_drop]
  · intro hle
    simp [List.drop_eq_nil_of_le hle]

theorem driver_resumption_witness :
    mainRun [recA, recB] (some [recA]) (fun r _ => AttemptOutcome.success r)
      false true 10 = ⟨[recA, recB], some [recA, recB], false⟩ := by
  have h := driver_resumption [recA, recB] [recA]
    (fun r _ => AttemptOutcome.success r) (fun r => r) false true 10 (by decide)
  exact h.1

/-- C5 counterexample: on the non-empty input "hello", when the remote
translation call raises, the exception propagates before the `sleep` line is
reached, so the call performs no pause at all — refuting the claim that every
non-empty-input call blocks 3 to 6 time units regardless of success or
failure. -/
theorem translate_sleep_counterexample :
    isFalsy (some (PyVal.str "hello")) = false ∧
    hasSleep (translateRun (fun s => s) true 3 (some (PyVal.str "hello"))).2 = false := by
  decide

/-- C5 (amended): for every non-empty text input, a call whose translation
request succeeds blocks the calling flow for the randomized 3-6 time units
(inclusive) after the request; when the request raises, the exception
propagates immediately and no pause occurs. -/
theorem translate_sleep_amended (g : String → String) (r : Nat)
    (text : Option PyVal) (h : isFalsy text = false) (h3 : 3 ≤ r) (h6 : r ≤ 6) :
    (translateRun g false r text).2 = [Effect.request, Effect.sleep r] ∧
    (∃ d, 3 ≤ d ∧ d ≤ 6 ∧ Effect.sleep d ∈ (translateRun g false r text).2) ∧
    (translateRun g true r text).2 = [Effect.request] := by
  refine ⟨?_, ?_, ?_⟩
  · simp [translateRun, h]
  · exact ⟨r, h3, h6, by simp [translateRun, h]⟩
  · simp [translateRun, h]

/-- C6 counterexample: on a record that already carries a `title_en` entry,
`_transform` overwrites it with the (re)translated `title` field, so the
output does not contain every input key-value pair unchanged. -/
theorem transform_overwrites_counterexample :
    recOverwrite.lookup "title_en" = some (PyVal.str "x") ∧
    (transform (fun s => s) recOverwrite).isSome = true ∧
    ((transform (fun s => s) recOverwrite).getD []).lookup "title_en" =
      some (PyVal.str "") ∧
    ((transform (fun s => s) recOverwrite).getD []).lookup "title_en" ≠
      some (PyVal.str "x") := by decide

/-- C6 (amended): whenever `_transform` succeeds, its output is a new mapping
that keeps every input key-value pair whose key is not one of the five
computed keys (an input entry under `title_en`, `description_en`,
`categories_en`, `image_alt_en` or `directory_path` is overwritten), carries
the four translated fields, and carries `directory_path` equal to the join of
the current directory, the image root, the year, the month and the filename
after the last slash of `image_url`; the input record is unchanged (the
embedding is pure, as the Python code builds `{**original}`). -/
theorem transform_amended (g : String → String) (r rOut : Record)
    (url pa y m : String)
    (hurl : asString (getD r "image_url" (PyVal.str "")) = some url)
    (hpa : asString (getD r "published_at" (PyVal.str "")) = some pa)
    (hym : getPublibedYearMonth pa = some (y, m))
    (h : transform g r = some rOut) :
    (∀ k, k ∉ enKeys → rOut.lookup k = r.lookup k) ∧
    rOut.lookup "title_en" = some (translatePure g (getD r "title" (PyVal.str ""))) ∧
    rOut.lookup "description_en" =
      some (translatePure g (getD r "description" (PyVal.str ""))) ∧
    rOut.lookup "categories_en" =
      some (translatePure g (getD r "categories" (PyVal.str ""))) ∧
    rOut.lookup "image_alt_en" =
      some (translatePure g (getD r "image_alt" (PyVal.str ""))) ∧
    rOut.lookup "directory_path" =
      some (PyVal.str (posixJoin "." [IMAGE_DIR, y, m, getFilenameFromUrl url])) := by
  unfold transform at h
  simp only [hurl, hpa, hym] at h
  have hOut := Option.some.inj h
  subst hOut
  refine ⟨?_, ?_, ?_, ?_, ?_, ?_⟩
  · intro k hk
    simp only [enKeys, List.mem_cons, List.not_mem_nil, or_false] at hk
    push_neg at hk
    obtain ⟨h1, h2, h3, h4, h5⟩ := hk
    rw [lookup_setK_ne _ _ _ _ h5, lookup_setK_ne _ _ _ _ h4,
      lookup_setK_ne _ _ _ _ h3, lookup_setK_ne _ _ _ _ h2,
      lookup_setK_ne _ _ _ _ h1]
  · rw [lookup_setK_ne _ _ _ _ (by decide), lookup_setK_ne _ _ _ _ (by decide),
      lookup_setK_ne _ _ _ _ (by decide), lookup_setK_ne _ _ _ _ (by decide),
      lookup_setK_self]
  · rw [lookup_setK_ne _ _ _ _ (by decide), lookup_setK_ne _ _ _ _ (by decide),
      lookup_setK_ne _ _ _ _ (by decide), lookup_setK_self,
      getD_setK_ne _ _ _ _ _ (by decide)]
  · rw [lookup_setK_ne _ _ _ _ (by decide), lookup_setK_ne _ _ _ _ (by decide),
      lookup_setK_self, getD_setK_ne _ _ _ _ _ (by decide),
      getD_setK_ne _ _ _ _ _ (by decide)]
  · rw [lookup_setK_ne _ _ _ _ (by decide), lookup_setK_self,
      getD_setK_ne _ _ _ _ _ (by decide), getD_setK_ne _ _ _ _ _ (by decide),
      getD_setK_ne _ _ _ _ _ (by decide)]
  · rw [lookup_setK_self]

theorem transform_amended_witness :
    recExOut.lookup "title_en" =
      some (translatePure (fun s => s) (getD recEx "title" (PyVal.str ""))) ∧
    recExOut.lookup "directory_path" =
      some (PyVal.str
        (posixJoin "." [IMAGE_DIR, "2020", "01", getFilenameFromUrl "http://x/a.png"])) := by
  have h := transform_amended (fun s => s) recEx recExOut
    "http://x/a.png" "2020-01-05 10:00:00" "2020" "01"
    (by decide) (by decide) (by decide) (by decide)
  exact ⟨h.2.1, h.2.2.2.2.2⟩

/-- C7 (code bug): a run with translate requested whose batch hits an
unexpected per-record failure (here `{"published_at": "2020"}`, whose
year/month unpacking raises ValueError) does not rewrite the output file:
the generator raises `NameError` from the bare `except:` handler, `main`
propagates it, and the write that the translate flag should force is never
reached (`fileWrite = none`, `raised = true`). -/
theorem main_translate_crash_skips_write :
    mainRun [recBadDate] (some []) (fun r _ => pureAttempt (fun s => s) true r)
      false true 10 = ⟨[], none, true⟩ := by decide

/-- C8: for every falsy text input — absent (`None`), the empty string, or
the empty list — `_translate` returns the empty string immediately, with an
empty effect trace: no network request and no pause, whatever the remote
behaviour `g`, `fail` and the random draw `r` would have been. -/
theorem translate_empty_fast_path (g : String → String) (fail : Bool) (r : Nat)
    (text : Option PyVal) (h : isFalsy text = true) :
    translateRun g fail r text = (TransResult.ok (PyVal.str ""), []) := by
  simp [translateRun, h]

theorem translate_empty_fast_path_witness :
    translateRun (fun s => s) true 0 none = (TransResult.ok (PyVal.str ""), []) :=
  translate_empty_fast_path (fun s => s) true 0 none rfl

/-- C9 counterexample: the empty list is a list-of-strings input, but it is
falsy, so `_translate` takes the fast path and returns the empty string — not
a list of the same (zero) length. -/
theorem translate_empty_list_counterexample :
    (translateRun (fun s => s) false 3 (some (PyVal.list []))).1 =
      TransResult.ok (PyVal.str "") ∧
    (translateRun (fun s => s) false 3 (some (PyVal.list []))).1 ≠
      TransResult.ok (PyVal.list []) := by decide

/-- C9 (amended): for every non-empty list-of-strings input, a successful
`_translate` call returns the list of the translated strings, in the same
order and of the same length; for every non-empty single-string input it
returns the single translated string; the empty list (like every falsy
input) yields the empty string instead. -/
theorem translate_shape_amended (g : String → String) (r : Nat)
    (l : List String) (s : String) (hl : l ≠ []) (hs : s ≠ "") :
    (translateRun g false r (some (PyVal.list l))).1 =
      TransResult.ok (PyVal.list (l.map g)) ∧
    (l.map g).length = l.length ∧
    (translateRun g false r (some (PyVal.str s))).1 =
      TransResult.ok (PyVal.str (g s)) := by
  refine ⟨?_, List.length_map l g, ?_⟩
  · have hf : isFalsy (some (PyVal.list l)) = false := by
      cases l with
      | nil => exact absurd rfl hl
      | cons a as => rfl
    simp [translateRun, hf, translateApi, List.map_map, Function.comp]
  · have hf : isFalsy (some (PyVal.str s)) = false := beq_eq_false_iff_ne.mpr hs
    simp [translateRun, hf, translateApi]

theorem translate_shape_amended_witness :
    (translateRun (fun s => s) false 3 (some (PyVal.list ["a", "b"]))).1 =
      TransResult.ok (PyVal.list (["a", "b"].map (fun s => s))) ∧
    (["a", "b"].map (fun s : String => s)).length = (["a", "b"] : List String).length ∧
    (translateRun (fun s => s) false 3 (some (PyVal.str "x"))).1 =
      TransResult.ok (PyVal.str "x") :=
  translate_shape_amended (fun s => s) 3 ["a", "b"] "x" (by decide) (by decide)

/-- C10: when `maxRetries` is not positive, `range(max_retries)` is empty, so
the attempt loop of `_process` runs zero times and the generator reaches
`yield new_obj` with `new_obj` never assigned: on the first record it raises
`UnboundLocalError` (`nameErrorNewObj`), emitting nothing, instead of
emitting or passing records through. -/
theorem process_zero_retries (st : Record → Nat → AttemptOutcome) (r : Record)
    (rest : List Record) (maxRetries : Int) (hm : maxRetries ≤ 0) :
    processBatch st (r :: rest) maxRetries none = ⟨[], [], .nameErrorNewObj⟩ := by
  have h0 : maxRetries.toNat = 0 := by omega
  simp [processBatch, runAttempts, h0, attemptLoop]

theorem process_zero_retries_witness :
    processBatch (fun _ _ => AttemptOutcome.success recA) [recA] 0 none =
      ⟨[], [], .nameErrorNewObj⟩ :=
  process_zero_retries (fun _ _ => AttemptOutcome.success recA) recA [] 0 (by decide)

theorem translate_sleep_amended_witness :
    (translateRun (fun s => s) false 4 (some (PyVal.str "hi"))).2 =
      [Effect.request, Effect.sleep 4] ∧
    (∃ d, 3 ≤ d ∧ d ≤ 6 ∧
      Effect.sleep d ∈ (translateRun (fun s => s) false 4 (some (PyVal.str "hi"))).2) ∧
    (translateRun (fun s => s) true 4 (some (PyVal.str "hi"))).2 = [Effect.request] :=
  translate_sleep_amended (fun s => s) 4 (some (PyVal.str "hi"))
    (by decide) (by decide) (by decide)

end IIE

